import Mathlib

/-!
Shallow embedding of the solve-orchestration layer in
`src/firedrake_ts/snes_solver.py` (classes `NonlinearVariationalProblem`
and `NonlinearVariationalSolver`), together with theorems settling the
spec claims about it.

Conventions of the embedding:
* Symbolic UFL/Slate forms are data (`FormArg`): a recognized form carries
  a symbolic identity, its number of free arguments (`len(F.arguments())`)
  and its coefficient list (`F.coefficients()`); anything else is a
  `nonForm` carrying its Python type name.
* The external symbolic derivative `ufl_expr.derivative` (an out-of-scope
  collaborator) is a parameter `derivative : FormArg → FunctionVal → FormArg`
  of the construction model; theorems quantify over it.  The model treats
  it as total; the Python function is only ever reached with a residual
  that the construction afterwards validates.
* Python exceptions become explicit error values: `TypeError` is
  `ErrKind.typeKind`, `ValueError` is `ErrKind.arityKind`, and the
  `TypeError` of `is_form_consistent` is `ErrKind.styleMismatchKind`,
  following the spec's error taxonomy (section 7).
* `solve()` is modelled as a pure function returning the ordered trace of
  engine-visible events, the final mutable state (contents of the unknown
  `u`, of the work vector, the `_setup` flag and the SNES callback
  bindings) and an optional raised error.
-/

namespace FiredrakeTs

/-- A coefficient of a form (`form.coefficients()` element); `space` is the
identity of its function space (`c.function_space()`). -/
structure Coefficient where
  ident : Nat
  space : Nat
deriving DecidableEq

/-- A firedrake `Function`: symbolic identity plus the identity of its
function space (`u.function_space()`). -/
structure FunctionVal where
  ident : Nat
  space : Nat
deriving DecidableEq

/-- A value passed where a symbolic form is expected.  A recognized form
(`ufl.BaseForm` or Slate tensor) carries a symbolic identity, the length of
its `arguments()` tuple and its `coefficients()` list; any other Python
value is `nonForm` with its type name. -/
inductive FormArg where
  | form (ident : Nat) (nargs : Nat) (coefficients : List Coefficient)
  | nonForm (typeName : String)
deriving DecidableEq

/-- `isinstance(F, (ufl.BaseForm, slate.slate.TensorBase))`. -/
def FormArg.isForm : FormArg → Bool
  | .form _ _ _ => true
  | .nonForm _ => false

/-- `len(F.arguments())`.  Only ever consulted by the source after the
`isinstance` check has passed; on a `nonForm` it is arbitrary (0). -/
def FormArg.nargs : FormArg → Nat
  | .form _ n _ => n
  | .nonForm _ => 0

/-- `F.coefficients()` (empty on a non-form, never consulted there). -/
def FormArg.coefficients : FormArg → List Coefficient
  | .form _ _ cs => cs
  | .nonForm _ => []

/-- A value passed as the solution argument `u`: either a firedrake
`Function` or some other Python value. -/
inductive SolArg where
  | function (f : FunctionVal)
  | nonFunction (typeName : String)
deriving DecidableEq

/-- A boundary condition object.  `isDirichlet` is
`isinstance(bc, DirichletBC)`; `is_linear` is the style flag of
non-Dirichlet (equation-type) conditions; `dirichlet_bcs` lists the
identities of the elementary Dirichlet sub-constraints produced by
`bc.dirichlet_bcs()`. -/
structure BC where
  isDirichlet : Bool
  is_linear : Bool
  dirichlet_bcs : List Nat
deriving DecidableEq

/-- Construction-time error taxonomy (spec section 7). -/
inductive ErrKind where
  | typeKind
  | arityKind
  | styleMismatchKind
deriving DecidableEq

/-- `is_form_consistent(is_linear, bcs)` (snes_solver.py lines 32-36),
with the Python condition transcribed literally:
`not (is_linear == all(bc.is_linear for bc in bcs if not isinstance(bc, DirichletBC))
 or not is_linear == all(not bc.is_linear for ...))`.
Returns the raised error, or `none` when the check passes. -/
def is_form_consistent (is_linear : Bool) (bcs : List BC) : Option ErrKind :=
  if !((is_linear == ((bcs.filter (fun bc => !bc.isDirichlet)).all (fun bc => bc.is_linear)))
      || !(is_linear == ((bcs.filter (fun bc => !bc.isDirichlet)).all (fun bc => !bc.is_linear))))
  then some .styleMismatchKind
  else none

/-- `check_pde_args(F, J, Jp)` (snes_solver.py lines 17-29): `TypeError`
(`typeKind`) for unrecognized forms, `ValueError` (`arityKind`) for wrong
argument counts, in source order. -/
def check_pde_args (F J : FormArg) (Jp : Option FormArg) : Option ErrKind :=
  if !F.isForm then some .typeKind
  else if F.nargs ≠ 1 then some .arityKind
  else if !J.isForm then some .typeKind
  else if J.nargs ≠ 2 then some .arityKind
  else match Jp with
    | none => none
    | some jp =>
      if !jp.isForm then some .typeKind
      else if jp.nargs ≠ 2 then some .arityKind
      else none

/-- The validated problem descriptor: the fields that
`NonlinearVariationalProblem.__init__` stores (`form_compiler_parameters`
is opaque configuration and omitted). -/
structure NonlinearVariationalProblem where
  bcs : List BC
  is_linear : Bool
  Jp_eq_J : Bool
  u : FunctionVal
  F : FormArg
  J : FormArg
  Jp : Option FormArg
  constant_jacobian : Bool
deriving DecidableEq

/-- `NonlinearVariationalProblem.__init__` (snes_solver.py lines 44-82),
with the external `ufl_expr.derivative` passed in as `derivative`.
Check order follows the source: style consistency first (line 65), then
the `Function` check on `u` (lines 71-72), then `J = J or derivative(F, u)`
(line 75), then `check_pde_args` (line 78). -/
def NonlinearVariationalProblem.init
    (derivative : FormArg → FunctionVal → FormArg)
    (F : FormArg) (u : SolArg) (bcs : List BC)
    (J Jp : Option FormArg) (is_linear : Bool) :
    Except ErrKind NonlinearVariationalProblem :=
  match is_form_consistent is_linear bcs with
  | some e => .error e
  | none =>
    match u with
    | .nonFunction _ => .error .typeKind
    | .function uf =>
      let J1 := J.getD (derivative F uf)
      match check_pde_args F J1 Jp with
      | some e => .error e
      | none =>
        .ok { bcs := bcs
              is_linear := is_linear
              Jp_eq_J := Jp.isNone
              u := uf
              F := F
              J := J1
              Jp := Jp
              constant_jacobian := false }

/-- `NonlinearVariationalProblem.dirichlet_bcs` (lines 84-86): flatten each
boundary condition into its elementary Dirichlet sub-constraints. -/
def NonlinearVariationalProblem.dirichlet_bcs
    (p : NonlinearVariationalProblem) : List Nat :=
  p.bcs.flatMap BC.dirichlet_bcs

/-- `firedrake.utils.unique` (external collaborator used at snes_solver.py
line 259/262): deduplicate preserving the order of first occurrences. -/
def unique {α : Type} [DecidableEq α] : List α → List α
  | [] => []
  | x :: xs => x :: (unique xs).filter (fun y => y ≠ x)

/-- Out-of-scope collaborators consulted by `solve()`: the mapping from a
function space to its DM (`V.dm`), the mapping from the solution's function
space to its mesh communicator (`u.function_space().mesh()._comm`), and the
in-place effect of `dbc.apply` on the contents of `u`. -/
structure Env where
  spaceDm : Nat → Nat
  spaceComm : Nat → Nat
  dbcApply : Nat → Int → Int

/-- The external PETSc SNES engine, specified only through the interface
`solve()` consumes: the collective solve maps the work vector's contents to
the engine's last iterate; `reason` is `getConvergedReason()` (negative
means diverged); `supportsBounds` says whether the configured SNES variant
implements `setVariableBounds`. -/
structure Engine where
  snesSolve : Int → Int
  reason : Int
  supportsBounds : Bool

/-- The mutable state `solve()` touches: the numeric contents of the
caller's `u`, the contents of the solver-owned work vector, the `_setup`
flag, and the SNES handle's residual/Jacobian callback bindings (identity
of the `_SNESContext` they were registered from). -/
structure SState where
  u : Int
  work : Int
  setup : Bool
  snesFunc : Option Nat
  snesJac : Option Nat
deriving DecidableEq

/-- A value passed as one of the two entries of the `bounds` pair: a proper
field entity (`Function`/`Vector`, carrying its vector contents) or any
other Python value. -/
inductive BoundArg where
  | field (val : Int)
  | nonField (typeName : String)
deriving DecidableEq

/-- Errors `solve()` can raise in the model: engine divergence (carrying
the reason code), an engine-level configuration failure for bounds on a
non-VI SNES variant, and the Python `AttributeError` from duck-typed
attribute access (`lower.dat.vec_ro`) on a non-field bound. -/
inductive SolveErr where
  | divergenceKind (reason : Int)
  | configurationKind
  | typeKind
  | attributeError
deriving DecidableEq

/-- Engine-visible events of one `solve()` call, in program order. -/
inductive Event where
  | setFunctionCallback
  | setJacobianCallback
  | applyBC (dbc : Nat)
  | setVariableBounds
  | copyToWork
  | insertOptions
  | removeOptions
  | attachHooks (dm : Nat)
  | detachHooks (dm : Nat)
  | pushTransfer (t : Nat)
  | popTransfer (t : Nat)
  | snesSolve
  | copyFromWork
  | garbageCleanup (comm : Nat)
deriving DecidableEq

/-- Models `firedrake.solving_utils.check_snes_convergence` (external
collaborator; spec section 4.4 step 10): raise `DivergenceKind` carrying
the engine's reason code when the reason is a diverged (negative) code. -/
def check_snes_convergence (reason : Int) : Option SolveErr :=
  if reason < 0 then some (.divergenceKind reason) else none

/-- The solver object: its problem, the identity of its `_SNESContext`
(`self._ctx`) and its tuple of grid-transfer operator contexts. -/
structure NonlinearVariationalSolver where
  problem : NonlinearVariationalProblem
  ctxId : Nat
  transfer_operators : List Nat

/-- `problem_dms` as computed in `solve()` (snes_solver.py lines 257-263):
deduplicate the coefficients of the non-null forms `(F, J, Jp)`, then their
function spaces, take each space's DM, drop the solution's DM, and append
the solution's DM last. -/
def problem_dms (env : Env) (p : NonlinearVariationalProblem) : List Nat :=
  let forms : List (Option FormArg) := [some p.F, some p.J, p.Jp]
  let coefficients := unique ((forms.filterMap id).flatMap FormArg.coefficients)
  let solution_dm := env.spaceDm p.u.space
  (((unique (coefficients.map Coefficient.space)).map env.spaceDm).filter
      (fun dm => dm ≠ solution_dm))
    ++ [solution_dm]

/-- Result of one `solve()` call: the ordered event trace, the final
mutable state, and the raised error if any (`none` = returned normally). -/
structure SolveOutcome where
  trace : List Event
  state : SState
  err : Option SolveErr
deriving DecidableEq

/-- The tail of `solve()` from `work = self._work` on (snes_solver.py lines
273-290): copy `u` into the work vector, enter the options scope, the DM
hook scopes (one per `problem_dms` entry, solution's last) and the transfer
operator scopes, run the collective SNES solve on the work vector, leave
the scopes in LIFO order, copy the work vector back into `u`, set
`_setup = True`, check convergence (raising on a diverged reason), and only
then call `PETSc.garbage_cleanup` on the problem's communicator. -/
def solveTail (env : Env) (eng : Engine) (sol : NonlinearVariationalSolver)
    (s : SState) (t : List Event) : SolveOutcome :=
  let p := sol.problem
  let dms := problem_dms env p
  let work1 := s.u
  let work2 := eng.snesSolve work1
  let s1 : SState := { s with work := work2, u := work2, setup := true }
  let t1 := t ++ [Event.copyToWork, Event.insertOptions]
      ++ dms.map Event.attachHooks
      ++ sol.transfer_operators.map Event.pushTransfer
      ++ [Event.snesSolve]
      ++ (sol.transfer_operators.map Event.popTransfer).reverse
      ++ (dms.map Event.detachHooks).reverse
      ++ [Event.removeOptions, Event.copyFromWork]
  match check_snes_convergence eng.reason with
  | some e => { trace := t1, state := s1, err := some e }
  | none =>
      { trace := t1 ++ [Event.garbageCleanup (env.spaceComm p.u.space)]
        state := s1
        err := none }

/-- `solve()` after the two `set_function`/`set_jacobian` rebinding calls
(snes_solver.py lines 256-290): apply each elementary Dirichlet constraint
to `u` in place, handle the optional `bounds` pair (duck-typed vector
extraction, then `snes.setVariableBounds`, which the engine rejects when
the configured variant does not support bounds), then run `solveTail`. -/
def solveAfterRebind (env : Env) (eng : Engine) (sol : NonlinearVariationalSolver)
    (s : SState) (bounds : Option (BoundArg × BoundArg)) : SolveOutcome :=
  let dbcs := sol.problem.dirichlet_bcs
  let u1 := dbcs.foldl (fun v d => env.dbcApply d v) s.u
  let s1 : SState := { s with u := u1 }
  let t1 := [Event.setFunctionCallback, Event.setJacobianCallback]
      ++ dbcs.map Event.applyBC
  match bounds with
  | none => solveTail env eng sol s1 t1
  | some (lower, upper) =>
    match lower, upper with
    | .field _, .field _ =>
      if eng.supportsBounds then
        solveTail env eng sol s1 (t1 ++ [Event.setVariableBounds])
      else { trace := t1, state := s1, err := some .configurationKind }
    | _, _ => { trace := t1, state := s1, err := some .attributeError }

/-- `NonlinearVariationalSolver.solve` (snes_solver.py lines 240-290).  The
first two statements re-register this solver's `_SNESContext` residual and
Jacobian callbacks on the SNES handle (lines 253-254); everything after
runs on the rebound state. -/
def NonlinearVariationalSolver.solve (env : Env) (eng : Engine)
    (sol : NonlinearVariationalSolver) (s0 : SState)
    (bounds : Option (BoundArg × BoundArg)) : SolveOutcome :=
  solveAfterRebind env eng sol
    { s0 with snesFunc := some sol.ctxId, snesJac := some sol.ctxId } bounds

/-- The DM of an attachment event (`none` for every other event). -/
def attachOf : Event → Option Nat
  | .attachHooks dm => some dm
  | _ => none

/-- The DMs attached during a solve, in attachment order. -/
def attachedDms (o : SolveOutcome) : List Nat :=
  o.trace.filterMap attachOf

/-- Recognizer for the engine garbage-cleanup event. -/
def isGarbageCleanup : Event → Bool
  | .garbageCleanup _ => true
  | _ => false

/-- Does the bounds handling of `solve()` succeed (reach the collective
solve): no bounds, or two field bounds on a bounds-capable engine. -/
def boundsAccepted (eng : Engine) : Option (BoundArg × BoundArg) → Bool
  | none => true
  | some (.field _, .field _) => eng.supportsBounds
  | some _ => false

/-- Sanity check: a well-formed construction stores its inputs. -/
theorem init_sample_eval :
    NonlinearVariationalProblem.init (fun f _ => f) (.form 0 1 []) (.function ⟨0, 0⟩)
      [] (some (.form 1 2 [])) none false =
    .ok { bcs := [], is_linear := false, Jp_eq_J := true, u := ⟨0, 0⟩,
          F := .form 0 1 [], J := .form 1 2 [], Jp := none,
          constant_jacobian := false } := rfl

theorem is_form_consistent_iff (L : Bool) (bcs : List BC) :
    is_form_consistent L bcs = some ErrKind.styleMismatchKind ↔
      (bcs.filter (fun bc => !bc.isDirichlet) ≠ [] ∧
       (bcs.filter (fun bc => !bc.isDirichlet)).all
         (fun bc => !(bc.is_linear == L)) = true) := by
  unfold is_form_consistent
  cases h : bcs.filter (fun bc => !bc.isDirichlet) with
  | nil => simp
  | cons b nd =>
    cases L <;> cases hb : b.is_linear <;>
      simp [List.all_cons, hb]

theorem is_form_consistent_some (L : Bool) (bcs : List BC) (e : ErrKind)
    (h : is_form_consistent L bcs = some e) : e = ErrKind.styleMismatchKind := by
  unfold is_form_consistent at h
  split at h
  · exact (Option.some.inj h).symm
  · exact absurd h (by simp)

theorem check_pde_args_ne_style (F J : FormArg) (Jp : Option FormArg) :
    check_pde_args F J Jp ≠ some ErrKind.styleMismatchKind := by
  unfold check_pde_args
  split_ifs <;> try simp
  cases Jp with
  | none => simp
  | some jp =>
    dsimp only
    split_ifs <;> simp

theorem check_pde_args_typeKind_F (F J : FormArg) (Jp : Option FormArg)
    (hF : F.isForm = false) : check_pde_args F J Jp = some ErrKind.typeKind := by
  unfold check_pde_args
  rw [hF]
  rfl

theorem check_pde_args_typeKind_J (F J : FormArg) (Jp : Option FormArg)
    (hF : F.isForm = true) (hFn : F.nargs = 1) (hJ : J.isForm = false) :
    check_pde_args F J Jp = some ErrKind.typeKind := by
  unfold check_pde_args
  rw [hF, hFn, hJ]
  rfl

theorem check_pde_args_typeKind_Jp (F J jp : FormArg)
    (hF : F.isForm = true) (hFn : F.nargs = 1)
    (hJ : J.isForm = true) (hJn : J.nargs = 2) (hjp : jp.isForm = false) :
    check_pde_args F J (some jp) = some ErrKind.typeKind := by
  unfold check_pde_args
  rw [hF, hFn, hJ, hJn]
  dsimp only
  rw [hjp]
  rfl

theorem check_pde_args_arity_iff (F J : FormArg) (Jp : Option FormArg)
    (hF : F.isForm = true) (hJ : J.isForm = true)
    (hJp : ∀ jp ∈ Jp, jp.isForm = true) :
    check_pde_args F J Jp = some ErrKind.arityKind ↔
      (F.nargs ≠ 1 ∨ J.nargs ≠ 2 ∨ ∃ jp ∈ Jp, jp.nargs ≠ 2) := by
  cases F with
  | nonForm t => exact absurd hF (by simp [FormArg.isForm])
  | form fi fn fc =>
    cases J with
    | nonForm t => exact absurd hJ (by simp [FormArg.isForm])
    | form ji jn jc =>
      cases Jp with
      | none =>
        simp only [check_pde_args, FormArg.isForm, FormArg.nargs, Bool.not_true,
          Bool.false_eq_true, if_false]
        split_ifs <;> simp_all
      | some jp =>
        cases jp with
        | nonForm t => exact absurd (hJp _ rfl) (by simp [FormArg.isForm])
        | form pi pn pc =>
          simp only [check_pde_args, FormArg.isForm, FormArg.nargs, Bool.not_true,
            Bool.false_eq_true, if_false]
          split_ifs <;> simp_all

/-- C2 (counterexample): the claim says that a boundary-condition set in
which at least one non-Dirichlet condition's `is_linear` flag disagrees
with the declared `is_linear` argument makes construction fail with
`StyleMismatchKind`.  It is false: with `is_linear = true` and two
non-Dirichlet conditions of which the second disagrees
(`is_linear = false`), construction succeeds. -/
theorem C2_counterexample :
    NonlinearVariationalProblem.init (fun f _ => f) (.form 0 1 [])
      (.function ⟨0, 0⟩)
      [⟨false, true, []⟩, ⟨false, false, []⟩]
      (some (.form 1 2 [])) none true =
    .ok { bcs := [⟨false, true, []⟩, ⟨false, false, []⟩], is_linear := true,
          Jp_eq_J := true, u := ⟨0, 0⟩,
          F := .form 0 1 [], J := .form 1 2 [], Jp := none,
          constant_jacobian := false } := rfl

/-- C2 (amended): construction fails with `StyleMismatchKind` exactly when
the set of non-Dirichlet boundary conditions is nonempty and every one of
them has the style opposite to the declared `is_linear`; sets whose
non-Dirichlet conditions all agree with the declared style (and
pure-Dirichlet sets, which are ignored) construct past the style check,
and so do mixed sets. -/
theorem C2_amended_style_mismatch (derivative : FormArg → FunctionVal → FormArg)
    (F : FormArg) (u : SolArg) (bcs : List BC) (J Jp : Option FormArg) (L : Bool) :
    NonlinearVariationalProblem.init derivative F u bcs J Jp L =
        Except.error ErrKind.styleMismatchKind ↔
      (bcs.filter (fun bc => !bc.isDirichlet) ≠ [] ∧
       (bcs.filter (fun bc => !bc.isDirichlet)).all
         (fun bc => !(bc.is_linear == L)) = true) := by
  rw [← is_form_consistent_iff]
  unfold NonlinearVariationalProblem.init
  cases h : is_form_consistent L bcs with
  | some e =>
    have he := is_form_consistent_some L bcs e h
    subst he
    simp
  | none =>
    simp only
    constructor
    · intro hinit
      cases u with
      | nonFunction t => exact absurd (Except.error.inj hinit) (by simp)
      | function uf =>
        revert hinit
        dsimp only
        cases hc : check_pde_args F (J.getD (derivative F uf)) Jp with
        | some e =>
          intro hinit
          have he : e = ErrKind.styleMismatchKind := Except.error.inj hinit
          exact absurd (he ▸ hc) (check_pde_args_ne_style _ _ _)
        | none => intro hinit; exact absurd hinit (by simp)
    · intro hsome
      exact Option.noConfusion hsome

/-- C5: if the `J` argument is omitted, the constructed descriptor's
Jacobian is exactly `derivative F u`, the symbolic directional derivative
of the residual with respect to the unknown as computed by the (pure)
external transformation, for every such transformation; if a `J` is
supplied, it is stored unchanged. -/
theorem C5_jacobian_derivation (derivative : FormArg → FunctionVal → FormArg)
    (F : FormArg) (uf : FunctionVal) (bcs : List BC) (Jp : Option FormArg)
    (L : Bool) (j : FormArg) (p q : NonlinearVariationalProblem) :
    (NonlinearVariationalProblem.init derivative F (.function uf) bcs none Jp L =
        Except.ok p → p.J = derivative F uf) ∧
    (NonlinearVariationalProblem.init derivative F (.function uf) bcs (some j) Jp L =
        Except.ok q → q.J = j) := by
  constructor <;>
  · intro h
    unfold NonlinearVariationalProblem.init at h
    split at h
    · exact absurd h (by simp)
    · revert h
      dsimp only
      split
      · intro h; exact absurd h (by simp)
      · intro h
        have := Except.ok.inj h
        subst this
        rfl

/-- C5 (witness): with a concrete residual and a concrete sample
derivative transformation, the descriptor built without a `J` argument
stores exactly the transformation's output as its Jacobian. -/
theorem C5_jacobian_derivation_witness :
    NonlinearVariationalProblem.init (fun _ _ => FormArg.form 99 2 [])
        (FormArg.form 0 1 []) (SolArg.function ⟨0, 0⟩) [] none none false =
      Except.ok { bcs := [], is_linear := false, Jp_eq_J := true, u := ⟨0, 0⟩,
                  F := FormArg.form 0 1 [], J := FormArg.form 99 2 [],
                  Jp := none, constant_jacobian := false } ∧
    ({ bcs := [], is_linear := false, Jp_eq_J := true, u := ⟨0, 0⟩,
       F := FormArg.form 0 1 [], J := FormArg.form 99 2 [],
       Jp := none, constant_jacobian := false } :
        NonlinearVariationalProblem).J =
      (fun _ _ => FormArg.form 99 2 []) (FormArg.form 0 1 [])
        (⟨0, 0⟩ : FunctionVal) :=
  ⟨rfl,
   (C5_jacobian_derivation (fun _ _ => FormArg.form 99 2 [])
      (FormArg.form 0 1 []) ⟨0, 0⟩ [] none false (FormArg.form 99 2 [])
      { bcs := [], is_linear := false, Jp_eq_J := true, u := ⟨0, 0⟩,
        F := FormArg.form 0 1 [], J := FormArg.form 99 2 [],
        Jp := none, constant_jacobian := false }
      { bcs := [], is_linear := false, Jp_eq_J := true, u := ⟨0, 0⟩,
        F := FormArg.form 0 1 [], J := FormArg.form 99 2 [],
        Jp := none, constant_jacobian := false }).1 rfl⟩

/-- C6: under a style-consistent boundary-condition set, a `Function`
unknown and recognized forms, construction fails with `ArityKind` exactly
when the residual does not have one free argument, or the supplied or
derived Jacobian does not have two, or a supplied preconditioner form does
not have two; in particular a construction whose forms all have the
correct arity never raises `ArityKind`. -/
theorem C6_arity_errors (derivative : FormArg → FunctionVal → FormArg)
    (F : FormArg) (uf : FunctionVal) (bcs : List BC) (J Jp : Option FormArg)
    (L : Bool)
    (hstyle : is_form_consistent L bcs = none)
    (hF : F.isForm = true)
    (hJ : (J.getD (derivative F uf)).isForm = true)
    (hJp : ∀ jp ∈ Jp, jp.isForm = true) :
    NonlinearVariationalProblem.init derivative F (.function uf) bcs J Jp L =
        Except.error ErrKind.arityKind ↔
      (F.nargs ≠ 1 ∨ (J.getD (derivative F uf)).nargs ≠ 2 ∨
       ∃ jp ∈ Jp, jp.nargs ≠ 2) := by
  unfold NonlinearVariationalProblem.init
  rw [hstyle]
  dsimp only
  rw [← check_pde_args_arity_iff F (J.getD (derivative F uf)) Jp hF hJ hJp]
  cases hc : check_pde_args F (J.getD (derivative F uf)) Jp with
  | some e =>
    constructor
    · intro h1
      rw [Except.error.inj h1]
    · intro h1
      rw [Option.some.inj h1]
  | none => simp

/-- C6 (witness): a residual with three free arguments (with everything
else well formed) makes construction fail with `ArityKind`. -/
theorem C6_arity_errors_witness :
    NonlinearVariationalProblem.init (fun f _ => f) (FormArg.form 0 3 [])
        (SolArg.function ⟨0, 0⟩) [] (some (FormArg.form 1 2 [])) none false =
      Except.error ErrKind.arityKind :=
  (C6_arity_errors (fun f _ => f) (FormArg.form 0 3 []) ⟨0, 0⟩ []
      (some (FormArg.form 1 2 [])) none false rfl rfl rfl
      (by intro jp hjp; cases hjp)).mpr
    (Or.inl (by decide))

/-- C7 (counterexample): the claim says a (supplied or derived) Jacobian
that is not arity-2 makes construction fail with `TypeKind`.  It is false:
a recognized bilinear-position form with one free argument raises the
arity error (`ValueError`, i.e. `ArityKind`), not `TypeKind`. -/
theorem C7_counterexample :
    (NonlinearVariationalProblem.init (fun f _ => f) (FormArg.form 0 1 [])
        (SolArg.function ⟨0, 0⟩) [] (some (FormArg.form 1 1 [])) none false =
      Except.error ErrKind.arityKind) ∧
    (NonlinearVariationalProblem.init (fun f _ => f) (FormArg.form 0 1 [])
        (SolArg.function ⟨0, 0⟩) [] (some (FormArg.form 1 1 [])) none false ≠
      Except.error ErrKind.typeKind) :=
  ⟨rfl, fun h => ErrKind.noConfusion (Except.error.inj h)⟩

/-- C7 (amended): under a style-consistent boundary-condition set,
construction fails with `TypeKind` when the unknown is not a `Function`;
when the residual is not a recognized symbolic-form value (and a Jacobian
is supplied, so the external derivative is not consulted); when the
supplied-or-derived Jacobian is not a recognized symbolic-form value (the
residual being a recognized arity-1 form); and when a supplied
preconditioner form is not a recognized symbolic-form value (residual and
Jacobian being recognized forms of correct arity).  Wrong arity of a
recognized form raises `ArityKind` instead, never `TypeKind`. -/
theorem C7_amended_type_errors (derivative : FormArg → FunctionVal → FormArg)
    (F : FormArg) (uf : FunctionVal) (bcs : List BC) (J Jp : Option FormArg)
    (L : Bool) (j : FormArg) (tn : String)
    (hstyle : is_form_consistent L bcs = none) :
    (NonlinearVariationalProblem.init derivative F (.nonFunction tn) bcs J Jp L =
        Except.error ErrKind.typeKind) ∧
    (F.isForm = false →
      NonlinearVariationalProblem.init derivative F (.function uf) bcs (some j) Jp L =
        Except.error ErrKind.typeKind) ∧
    (F.isForm = true → F.nargs = 1 → (J.getD (derivative F uf)).isForm = false →
      NonlinearVariationalProblem.init derivative F (.function uf) bcs J Jp L =
        Except.error ErrKind.typeKind) ∧
    (∀ jp, Jp = some jp → jp.isForm = false →
      F.isForm = true → F.nargs = 1 →
      (J.getD (derivative F uf)).isForm = true →
      (J.getD (derivative F uf)).nargs = 2 →
      NonlinearVariationalProblem.init derivative F (.function uf) bcs J Jp L =
        Except.error ErrKind.typeKind) := by
  refine ⟨?_, ?_, ?_, ?_⟩
  · unfold NonlinearVariationalProblem.init
    rw [hstyle]
  · intro hF
    unfold NonlinearVariationalProblem.init
    rw [hstyle]
    dsimp only [Option.getD]
    rw [check_pde_args_typeKind_F F j Jp hF]
  · intro hF hFn hJ
    unfold NonlinearVariationalProblem.init
    rw [hstyle]
    dsimp only
    rw [check_pde_args_typeKind_J F (J.getD (derivative F uf)) Jp hF hFn hJ]
  · intro jp hJp hjp hF hFn hJ hJn
    subst hJp
    unfold NonlinearVariationalProblem.init
    rw [hstyle]
    dsimp only
    rw [check_pde_args_typeKind_Jp F (J.getD (derivative F uf)) jp hF hFn hJ hJn hjp]

/-- C7 (witness): a non-form residual with a supplied Jacobian fails with
`TypeKind`, as does a non-`Function` unknown. -/
theorem C7_amended_type_errors_witness :
    (NonlinearVariationalProblem.init (fun f _ => f) (FormArg.nonForm "int")
        (SolArg.function ⟨0, 0⟩) [] (some (FormArg.form 1 2 [])) none false =
      Except.error ErrKind.typeKind) ∧
    (NonlinearVariationalProblem.init (fun f _ => f) (FormArg.form 0 1 [])
        (SolArg.nonFunction "int") [] (some (FormArg.form 1 2 [])) none false =
      Except.error ErrKind.typeKind) :=
  ⟨(C7_amended_type_errors (fun f _ => f) (FormArg.nonForm "int") ⟨0, 0⟩ []
      (some (FormArg.form 1 2 [])) none false (FormArg.form 1 2 []) "int" rfl).2.1 rfl,
   (C7_amended_type_errors (fun f _ => f) (FormArg.form 0 1 []) ⟨0, 0⟩ []
      (some (FormArg.form 1 2 [])) none false (FormArg.form 1 2 []) "int" rfl).1⟩

section UniqueLemmas

variable {α : Type} {β : Type} [DecidableEq α] [DecidableEq β]

theorem unique_filter (q : α → Bool) (l : List α) :
    (unique l).filter q = unique (l.filter q) := by
  induction l with
  | nil => rfl
  | cons x xs ih =>
    by_cases hq : q x = true
    · rw [unique, List.filter_cons_of_pos hq, List.filter_cons_of_pos hq,
        unique, ← ih, List.filter_filter, List.filter_filter]
      congr 1
      apply List.filter_congr
      intro a _
      rw [Bool.and_comm]
    · have hq2 : q x = false := by
        cases h : q x
        · rfl
        · exact absurd h hq
      rw [unique, List.filter_cons_of_neg (by rw [hq2]; exact Bool.false_ne_true),
        List.filter_cons_of_neg (by rw [hq2]; exact Bool.false_ne_true),
        List.filter_filter, ← ih]
      apply List.filter_congr
      intro a _
      by_cases hax : a = x
      · subst hax
        rw [hq2]
        simp
      · simp [hax]

theorem map_unique_of_injective (f : α → β) (hf : Function.Injective f)
    (l : List α) : (unique l).map f = unique (l.map f) := by
  induction l with
  | nil => rfl
  | cons x xs ih =>
    rw [unique, List.map_cons, List.map_cons, unique, ← ih, List.filter_map]
    congr 1
    refine congrArg (List.map f) ?_
    apply List.filter_congr
    intro a _
    simp only [Function.comp_apply]
    rw [decide_eq_decide]
    exact (not_congr hf.eq_iff).symm

theorem unique_map_unique (f : α → β) (l : List α) :
    unique ((unique l).map f) = unique (l.map f) := by
  induction l with
  | nil => rfl
  | cons x xs ih =>
    rw [unique, List.map_cons, List.map_cons, unique, unique]
    congr 1
    have h1 : (List.map f ((unique xs).filter (fun y => y ≠ x))).filter
        (fun y => y ≠ f x) =
        (List.map f (unique xs)).filter (fun y => y ≠ f x) := by
      rw [List.filter_map, List.filter_map, List.filter_filter]
      refine congrArg (List.map f) ?_
      apply List.filter_congr
      intro a _
      by_cases hfa : f a = f x
      · simp [Function.comp, hfa]
      · have hax : ¬a = x := fun h => hfa (by rw [h])
        simp [Function.comp, hfa, hax]
    calc (unique (List.map f ((unique xs).filter (fun y => y ≠ x)))).filter
          (fun y => y ≠ f x)
        = unique ((List.map f ((unique xs).filter (fun y => y ≠ x))).filter
            (fun y => y ≠ f x)) := unique_filter _ _
      _ = unique ((List.map f (unique xs)).filter (fun y => y ≠ f x)) := by
            rw [h1]
      _ = (unique (List.map f (unique xs))).filter (fun y => y ≠ f x) :=
            (unique_filter _ _).symm
      _ = (unique (List.map f xs)).filter (fun y => y ≠ f x) := by rw [ih]

end UniqueLemmas

theorem problem_dms_eq (env : Env) (p : NonlinearVariationalProblem)
    (hinj : Function.Injective env.spaceDm) :
    problem_dms env p =
      (unique ((([some p.F, some p.J, p.Jp].filterMap id).flatMap
          FormArg.coefficients).map (fun c => env.spaceDm c.space))).filter
        (fun dm => dm ≠ env.spaceDm p.u.space)
      ++ [env.spaceDm p.u.space] := by
  unfold problem_dms
  dsimp only
  congr 1
  congr 1
  rw [map_unique_of_injective env.spaceDm hinj, List.map_map, unique_map_unique]
  rfl

/-- Sanity check: the full outcome of one concrete converged solve. -/
theorem solve_sample_eval :
    (NonlinearVariationalSolver.solve
      { spaceDm := id, spaceComm := fun _ => 7, dbcApply := fun _ v => v }
      { snesSolve := fun w => w + 5, reason := 2, supportsBounds := false }
      { problem := { bcs := [], is_linear := false, Jp_eq_J := true, u := ⟨0, 3⟩,
                     F := .form 0 1 [⟨1, 4⟩], J := .form 1 2 [⟨1, 4⟩, ⟨2, 3⟩],
                     Jp := none, constant_jacobian := false },
        ctxId := 11, transfer_operators := [] }
      { u := 1, work := 0, setup := false, snesFunc := none, snesJac := none }
      none) =
    { trace := [.setFunctionCallback, .setJacobianCallback, .copyToWork,
                .insertOptions, .attachHooks 4, .attachHooks 3, .snesSolve,
                .detachHooks 3, .detachHooks 4, .removeOptions, .copyFromWork,
                .garbageCleanup 7]
      state := { u := 6, work := 6, setup := true, snesFunc := some 11, snesJac := some 11 }
      err := none } := by decide

theorem solveTail_state (env : Env) (eng : Engine)
    (sol : NonlinearVariationalSolver) (s : SState) (t : List Event) :
    (solveTail env eng sol s t).state =
      { s with work := eng.snesSolve s.u, u := eng.snesSolve s.u, setup := true } := by
  unfold solveTail
  dsimp only
  cases h : check_snes_convergence eng.reason <;> rfl

theorem solveTail_err (env : Env) (eng : Engine)
    (sol : NonlinearVariationalSolver) (s : SState) (t : List Event) :
    (solveTail env eng sol s t).err = check_snes_convergence eng.reason := by
  unfold solveTail
  dsimp only
  cases h : check_snes_convergence eng.reason <;> rfl

theorem solveTail_trace (env : Env) (eng : Engine)
    (sol : NonlinearVariationalSolver) (s : SState) (t : List Event) :
    (solveTail env eng sol s t).trace =
      t ++ [Event.copyToWork, Event.insertOptions]
        ++ (problem_dms env sol.problem).map Event.attachHooks
        ++ sol.transfer_operators.map Event.pushTransfer
        ++ [Event.snesSolve]
        ++ (sol.transfer_operators.map Event.popTransfer).reverse
        ++ ((problem_dms env sol.problem).map Event.detachHooks).reverse
        ++ [Event.removeOptions, Event.copyFromWork]
        ++ (if eng.reason < 0 then []
            else [Event.garbageCleanup (env.spaceComm sol.problem.u.space)]) := by
  unfold solveTail check_snes_convergence
  dsimp only
  split_ifs <;> simp

/-- When the bounds handling succeeds, `solve()` is the rebinding events,
the in-place Dirichlet application, the optional bounds registration event
and then the common tail. -/
theorem solve_accepted (env : Env) (eng : Engine)
    (sol : NonlinearVariationalSolver) (s0 : SState)
    (bounds : Option (BoundArg × BoundArg))
    (hb : boundsAccepted eng bounds = true) :
    NonlinearVariationalSolver.solve env eng sol s0 bounds =
      solveTail env eng sol
        { s0 with
            u := sol.problem.dirichlet_bcs.foldl (fun v d => env.dbcApply d v) s0.u,
            snesFunc := some sol.ctxId, snesJac := some sol.ctxId }
        ([Event.setFunctionCallback, Event.setJacobianCallback]
          ++ sol.problem.dirichlet_bcs.map Event.applyBC
          ++ (if bounds.isSome then [Event.setVariableBounds] else [])) := by
  cases bounds with
  | none =>
    unfold NonlinearVariationalSolver.solve solveAfterRebind
    simp
  | some b =>
    rcases b with ⟨lb, ub⟩
    cases lb with
    | nonField t => exact absurd hb (by simp [boundsAccepted])
    | field lv =>
      cases ub with
      | nonField t => exact absurd hb (by simp [boundsAccepted])
      | field uv =>
        have hsb : eng.supportsBounds = true := hb
        unfold NonlinearVariationalSolver.solve solveAfterRebind
        dsimp only
        rw [hsb]
        simp

theorem attachOf_eq_nil_of_forall (l : List Event)
    (h : ∀ e ∈ l, attachOf e = none) : l.filterMap attachOf = [] := by
  induction l with
  | nil => rfl
  | cons x xs ih =>
    rw [List.filterMap_cons, h x (List.mem_cons_self x xs)]
    exact ih (fun e he => h e (List.mem_cons_of_mem x he))

theorem attachOf_comp_applyBC (l : List Nat) :
    l.filterMap (attachOf ∘ Event.applyBC) = [] := by
  simp [attachOf, Function.comp]

theorem attachOf_comp_push (l : List Nat) :
    l.filterMap (attachOf ∘ Event.pushTransfer) = [] := by
  simp [attachOf, Function.comp]

theorem attachOf_comp_pop (l : List Nat) :
    l.filterMap (attachOf ∘ Event.popTransfer) = [] := by
  simp [attachOf, Function.comp]

theorem attachOf_comp_detach (l : List Nat) :
    l.filterMap (attachOf ∘ Event.detachHooks) = [] := by
  simp [attachOf, Function.comp]

theorem attachOf_comp_attach (l : List Nat) :
    l.filterMap (attachOf ∘ Event.attachHooks) = l := by
  induction l with
  | nil => rfl
  | cons x xs ih => simpa [attachOf] using ih

/-- Every DM hook attachment of an accepted solve comes from
`problem_dms`, in order. -/
theorem attachedDms_solve (env : Env) (eng : Engine)
    (sol : NonlinearVariationalSolver) (s0 : SState)
    (bounds : Option (BoundArg × BoundArg))
    (hb : boundsAccepted eng bounds = true) :
    attachedDms (NonlinearVariationalSolver.solve env eng sol s0 bounds) =
      problem_dms env sol.problem := by
  rw [solve_accepted env eng sol s0 bounds hb]
  unfold attachedDms
  rw [solveTail_trace]
  cases hq : bounds.isSome <;> split_ifs <;>
    simp [List.filterMap_append, attachOf_comp_applyBC, attachOf_comp_attach,
      attachOf_comp_push, attachOf_comp_pop, attachOf_comp_detach, attachOf]

/-- C1 (counterexample): the claim says `PETSc.garbage_cleanup` is reached
regardless of convergence outcome.  It is false: on a concrete diverged
solve, `solve()` raises `DivergenceKind` from the convergence check and the
cleanup call, which comes only after that check, never appears in the
trace. -/
theorem C1_counterexample :
    ((NonlinearVariationalSolver.solve ⟨fun s => s, fun _ => 7, fun _ v => v⟩
        ⟨fun w => w + 5, -3, false⟩
        ⟨{ bcs := [], is_linear := false, Jp_eq_J := true, u := ⟨0, 3⟩,
           F := .form 0 1 [⟨1, 4⟩], J := .form 1 2 [⟨1, 4⟩],
           Jp := none, constant_jacobian := false }, 11, []⟩
        ⟨1, 0, false, none, none⟩ none).err =
      some (SolveErr.divergenceKind (-3))) ∧
    ((NonlinearVariationalSolver.solve ⟨fun s => s, fun _ => 7, fun _ v => v⟩
        ⟨fun w => w + 5, -3, false⟩
        ⟨{ bcs := [], is_linear := false, Jp_eq_J := true, u := ⟨0, 3⟩,
           F := .form 0 1 [⟨1, 4⟩], J := .form 1 2 [⟨1, 4⟩],
           Jp := none, constant_jacobian := false }, 11, []⟩
        ⟨1, 0, false, none, none⟩ none).trace.all
      (fun e => !isGarbageCleanup e) = true) := by decide

/-- C1 (amended): after an accepted bounds handling, the engine garbage
cleanup on the problem's communicator is the last event of the solve when
the convergence check passes (and therefore comes after the collective
solve); when the engine reports a diverged reason, `solve()` raises
`DivergenceKind` and the cleanup call is never reached. -/
theorem C1_amended_cleanup (env : Env) (eng : Engine)
    (sol : NonlinearVariationalSolver) (s0 : SState)
    (bounds : Option (BoundArg × BoundArg))
    (hb : boundsAccepted eng bounds = true) :
    (0 ≤ eng.reason →
      (NonlinearVariationalSolver.solve env eng sol s0 bounds).err = none ∧
      (NonlinearVariationalSolver.solve env eng sol s0 bounds).trace.getLast? =
        some (Event.garbageCleanup (env.spaceComm sol.problem.u.space)) ∧
      Event.snesSolve ∈ (NonlinearVariationalSolver.solve env eng sol s0 bounds).trace) ∧
    (eng.reason < 0 →
      (NonlinearVariationalSolver.solve env eng sol s0 bounds).err =
        some (SolveErr.divergenceKind eng.reason) ∧
      (∀ c, Event.garbageCleanup c ∉
        (NonlinearVariationalSolver.solve env eng sol s0 bounds).trace) ∧
      Event.snesSolve ∈ (NonlinearVariationalSolver.solve env eng sol s0 bounds).trace) := by
  rw [solve_accepted env eng sol s0 bounds hb]
  constructor
  · intro hr
    have hr2 : ¬eng.reason < 0 := not_lt.mpr hr
    refine ⟨?_, ?_, ?_⟩
    · rw [solveTail_err]
      unfold check_snes_convergence
      rw [if_neg hr2]
    · rw [solveTail_trace, if_neg hr2]
      exact List.getLast?_concat _
    · rw [solveTail_trace]
      simp
  · intro hr
    refine ⟨?_, ?_, ?_⟩
    · rw [solveTail_err]
      unfold check_snes_convergence
      rw [if_pos hr]
    · intro c
      rw [solveTail_trace, if_pos hr]
      cases hq : bounds.isSome <;> simp [hq]
    · rw [solveTail_trace]
      simp

/-- C1 (witness): a concrete converged solve ends in the cleanup event on
the problem's communicator, and a concrete diverged solve raises
`DivergenceKind` with no cleanup event. -/
theorem C1_amended_cleanup_witness :
    ((NonlinearVariationalSolver.solve ⟨fun s => s, fun _ => 7, fun _ v => v⟩
        ⟨fun w => w + 5, 2, false⟩
        ⟨{ bcs := [], is_linear := false, Jp_eq_J := true, u := ⟨0, 3⟩,
           F := .form 0 1 [⟨1, 4⟩], J := .form 1 2 [⟨1, 4⟩],
           Jp := none, constant_jacobian := false }, 11, []⟩
        ⟨1, 0, false, none, none⟩ none).trace.getLast? =
      some (Event.garbageCleanup 7)) ∧
    (Event.garbageCleanup 7 ∉
      (NonlinearVariationalSolver.solve ⟨fun s => s, fun _ => 7, fun _ v => v⟩
        ⟨fun w => w + 5, -3, false⟩
        ⟨{ bcs := [], is_linear := false, Jp_eq_J := true, u := ⟨0, 3⟩,
           F := .form 0 1 [⟨1, 4⟩], J := .form 1 2 [⟨1, 4⟩],
           Jp := none, constant_jacobian := false }, 11, []⟩
        ⟨1, 0, false, none, none⟩ none).trace) :=
  ⟨((C1_amended_cleanup ⟨fun s => s, fun _ => 7, fun _ v => v⟩
        ⟨fun w => w + 5, 2, false⟩
        ⟨{ bcs := [], is_linear := false, Jp_eq_J := true, u := ⟨0, 3⟩,
           F := .form 0 1 [⟨1, 4⟩], J := .form 1 2 [⟨1, 4⟩],
           Jp := none, constant_jacobian := false }, 11, []⟩
        ⟨1, 0, false, none, none⟩ none rfl).1 (by decide)).2.1,
   ((C1_amended_cleanup ⟨fun s => s, fun _ => 7, fun _ v => v⟩
        ⟨fun w => w + 5, -3, false⟩
        ⟨{ bcs := [], is_linear := false, Jp_eq_J := true, u := ⟨0, 3⟩,
           F := .form 0 1 [⟨1, 4⟩], J := .form 1 2 [⟨1, 4⟩],
           Jp := none, constant_jacobian := false }, 11, []⟩
        ⟨1, 0, false, none, none⟩ none rfl).2 (by decide)).2.1 7⟩

/-- C3: in an accepted solve, the sequence of attached DM contexts is the
order-preserving deduplication of the coefficient DMs of the non-null
forms `(F, J, Jp)`, with the solution's DM removed and then appended last,
so the solution's DM is always the last context attached — also when a
coefficient shares the solution's DM.  `hinj` states that distinct
function spaces own distinct DMs, as in firedrake where each space builds
its own DM. -/
theorem C3_solution_dm_last (env : Env) (eng : Engine)
    (sol : NonlinearVariationalSolver) (s0 : SState)
    (bounds : Option (BoundArg × BoundArg))
    (hb : boundsAccepted eng bounds = true)
    (hinj : Function.Injective env.spaceDm) :
    attachedDms (NonlinearVariationalSolver.solve env eng sol s0 bounds) =
      (unique ((([some sol.problem.F, some sol.problem.J,
            sol.problem.Jp].filterMap id).flatMap FormArg.coefficients).map
          (fun c => env.spaceDm c.space))).filter
        (fun dm => dm ≠ env.spaceDm sol.problem.u.space)
      ++ [env.spaceDm sol.problem.u.space] ∧
    (attachedDms (NonlinearVariationalSolver.solve env eng sol s0 bounds)).getLast? =
      some (env.spaceDm sol.problem.u.space) := by
  have h1 := attachedDms_solve env eng sol s0 bounds hb
  rw [h1, problem_dms_eq env sol.problem hinj]
  exact ⟨rfl, List.getLast?_concat _⟩

/-- C3 (witness): a concrete solve whose Jacobian shares a coefficient
with the residual and whose residual has a coefficient living on the
solution's own discretization: the shared-coefficient DM appears once and
the solution's DM is attached last. -/
theorem C3_solution_dm_last_witness :
    attachedDms (NonlinearVariationalSolver.solve ⟨fun s => s, fun _ => 7, fun _ v => v⟩
        ⟨fun w => w + 5, 2, false⟩
        ⟨{ bcs := [], is_linear := false, Jp_eq_J := true, u := ⟨0, 3⟩,
           F := .form 0 1 [⟨1, 4⟩, ⟨2, 3⟩], J := .form 1 2 [⟨1, 4⟩],
           Jp := none, constant_jacobian := false }, 11, []⟩
        ⟨1, 0, false, none, none⟩ none) = [4, 3] ∧
    (attachedDms (NonlinearVariationalSolver.solve ⟨fun s => s, fun _ => 7, fun _ v => v⟩
        ⟨fun w => w + 5, 2, false⟩
        ⟨{ bcs := [], is_linear := false, Jp_eq_J := true, u := ⟨0, 3⟩,
           F := .form 0 1 [⟨1, 4⟩, ⟨2, 3⟩], J := .form 1 2 [⟨1, 4⟩],
           Jp := none, constant_jacobian := false }, 11, []⟩
        ⟨1, 0, false, none, none⟩ none)).getLast? = some 3 :=
  ⟨((C3_solution_dm_last ⟨fun s => s, fun _ => 7, fun _ v => v⟩
        ⟨fun w => w + 5, 2, false⟩
        ⟨{ bcs := [], is_linear := false, Jp_eq_J := true, u := ⟨0, 3⟩,
           F := .form 0 1 [⟨1, 4⟩, ⟨2, 3⟩], J := .form 1 2 [⟨1, 4⟩],
           Jp := none, constant_jacobian := false }, 11, []⟩
        ⟨1, 0, false, none, none⟩ none rfl (fun a b h => h)).1).trans (by decide),
   (C3_solution_dm_last ⟨fun s => s, fun _ => 7, fun _ v => v⟩
        ⟨fun w => w + 5, 2, false⟩
        ⟨{ bcs := [], is_linear := false, Jp_eq_J := true, u := ⟨0, 3⟩,
           F := .form 0 1 [⟨1, 4⟩, ⟨2, 3⟩], J := .form 1 2 [⟨1, 4⟩],
           Jp := none, constant_jacobian := false }, 11, []⟩
        ⟨1, 0, false, none, none⟩ none rfl (fun a b h => h)).2⟩

/-- C4: when the bounds handling is accepted and the engine reports a
diverged (negative) reason, `solve()` fails with `DivergenceKind` carrying
that reason, and at that point the caller's `u` already holds the engine's
last iterate — the result of the collective solve on the
boundary-condition-applied initial contents — copied back from the work
vector (`u` and `work` agree); no rollback to the pre-solve value
happens. -/
theorem C4_divergence_overwrite (env : Env) (eng : Engine)
    (sol : NonlinearVariationalSolver) (s0 : SState)
    (bounds : Option (BoundArg × BoundArg))
    (hb : boundsAccepted eng bounds = true) (hr : eng.reason < 0) :
    (NonlinearVariationalSolver.solve env eng sol s0 bounds).err =
      some (SolveErr.divergenceKind eng.reason) ∧
    (NonlinearVariationalSolver.solve env eng sol s0 bounds).state.u =
      eng.snesSolve
        (sol.problem.dirichlet_bcs.foldl (fun v d => env.dbcApply d v) s0.u) ∧
    (NonlinearVariationalSolver.solve env eng sol s0 bounds).state.u =
      (NonlinearVariationalSolver.solve env eng sol s0 bounds).state.work := by
  rw [solve_accepted env eng sol s0 bounds hb]
  refine ⟨?_, ?_, ?_⟩
  · rw [solveTail_err]
    unfold check_snes_convergence
    rw [if_pos hr]
  · rw [solveTail_state]
  · rw [solveTail_state]

/-- C4 (witness): a concrete diverged engine run (`reason = -2`, engine map
`w ↦ w + 5`, initial `u = 1`): `solve()` raises `DivergenceKind (-2)` while
`u` has already been overwritten with the last iterate 6 ≠ 1. -/
theorem C4_divergence_overwrite_witness :
    (NonlinearVariationalSolver.solve ⟨fun s => s, fun _ => 7, fun _ v => v⟩
        ⟨fun w => w + 5, -2, false⟩
        ⟨{ bcs := [], is_linear := false, Jp_eq_J := true, u := ⟨0, 3⟩,
           F := .form 0 1 [⟨1, 4⟩], J := .form 1 2 [⟨1, 4⟩],
           Jp := none, constant_jacobian := false }, 11, []⟩
        ⟨1, 0, false, none, none⟩ none).err =
      some (SolveErr.divergenceKind (-2)) ∧
    (NonlinearVariationalSolver.solve ⟨fun s => s, fun _ => 7, fun _ v => v⟩
        ⟨fun w => w + 5, -2, false⟩
        ⟨{ bcs := [], is_linear := false, Jp_eq_J := true, u := ⟨0, 3⟩,
           F := .form 0 1 [⟨1, 4⟩], J := .form 1 2 [⟨1, 4⟩],
           Jp := none, constant_jacobian := false }, 11, []⟩
        ⟨1, 0, false, none, none⟩ none).state.u = 6 :=
  ⟨(C4_divergence_overwrite ⟨fun s => s, fun _ => 7, fun _ v => v⟩
        ⟨fun w => w + 5, -2, false⟩
        ⟨{ bcs := [], is_linear := false, Jp_eq_J := true, u := ⟨0, 3⟩,
           F := .form 0 1 [⟨1, 4⟩], J := .form 1 2 [⟨1, 4⟩],
           Jp := none, constant_jacobian := false }, 11, []⟩
        ⟨1, 0, false, none, none⟩ none rfl (by decide)).1,
   (C4_divergence_overwrite ⟨fun s => s, fun _ => 7, fun _ v => v⟩
        ⟨fun w => w + 5, -2, false⟩
        ⟨{ bcs := [], is_linear := false, Jp_eq_J := true, u := ⟨0, 3⟩,
           F := .form 0 1 [⟨1, 4⟩], J := .form 1 2 [⟨1, 4⟩],
           Jp := none, constant_jacobian := false }, 11, []⟩
        ⟨1, 0, false, none, none⟩ none rfl (by decide)).2.1⟩

theorem solveAfterRebind_trace_take2 (env : Env) (eng : Engine)
    (sol : NonlinearVariationalSolver) (s : SState)
    (bounds : Option (BoundArg × BoundArg)) :
    (solveAfterRebind env eng sol s bounds).trace.take 2 =
      [Event.setFunctionCallback, Event.setJacobianCallback] := by
  cases bounds with
  | none =>
    unfold solveAfterRebind
    dsimp only
    rw [solveTail_trace]
    rfl
  | some b =>
    rcases b with ⟨lb, ub⟩
    cases lb with
    | nonField t => cases ub <;> rfl
    | field lv =>
      cases ub with
      | nonField t => rfl
      | field uv =>
        unfold solveAfterRebind
        dsimp only
        split_ifs
        · rw [solveTail_trace]
          rfl
        · rfl

theorem solveAfterRebind_bindings (env : Env) (eng : Engine)
    (sol : NonlinearVariationalSolver) (s : SState)
    (bounds : Option (BoundArg × BoundArg)) :
    (solveAfterRebind env eng sol s bounds).state.snesFunc = s.snesFunc ∧
    (solveAfterRebind env eng sol s bounds).state.snesJac = s.snesJac := by
  cases bounds with
  | none =>
    unfold solveAfterRebind
    dsimp only
    rw [solveTail_state]
    exact ⟨rfl, rfl⟩
  | some b =>
    rcases b with ⟨lb, ub⟩
    cases lb with
    | nonField t => cases ub <;> exact ⟨rfl, rfl⟩
    | field lv =>
      cases ub with
      | nonField t => exact ⟨rfl, rfl⟩
      | field uv =>
        unfold solveAfterRebind
        dsimp only
        split_ifs
        · rw [solveTail_state]
          exact ⟨rfl, rfl⟩
        · exact ⟨rfl, rfl⟩

/-- C8: on every `solve()` call — whatever the bounds argument and whatever
callback bindings the SNES handle carried before — the first two events are
the re-registration of the residual and Jacobian callbacks, hence they
precede every DM context attachment; after the call the SNES handle is
bound to this solver's `_SNESContext`; and the whole outcome is
independent of the previous bindings (the rebinding is an idempotent
overwrite). -/
theorem C8_rebind_callbacks (env : Env) (eng : Engine)
    (sol : NonlinearVariationalSolver) (bounds : Option (BoundArg × BoundArg))
    (u w : Int) (st : Bool) (x y x2 y2 : Option Nat) :
    ((NonlinearVariationalSolver.solve env eng sol ⟨u, w, st, x, y⟩ bounds).trace.take 2 =
      [Event.setFunctionCallback, Event.setJacobianCallback]) ∧
    (∀ dm, Event.attachHooks dm ∉
      (NonlinearVariationalSolver.solve env eng sol ⟨u, w, st, x, y⟩ bounds).trace.take 2) ∧
    ((NonlinearVariationalSolver.solve env eng sol ⟨u, w, st, x, y⟩ bounds).state.snesFunc =
        some sol.ctxId ∧
     (NonlinearVariationalSolver.solve env eng sol ⟨u, w, st, x, y⟩ bounds).state.snesJac =
        some sol.ctxId) ∧
    (NonlinearVariationalSolver.solve env eng sol ⟨u, w, st, x, y⟩ bounds =
      NonlinearVariationalSolver.solve env eng sol ⟨u, w, st, x2, y2⟩ bounds) := by
  have ht : (NonlinearVariationalSolver.solve env eng sol ⟨u, w, st, x, y⟩ bounds).trace.take 2 =
      [Event.setFunctionCallback, Event.setJacobianCallback] :=
    solveAfterRebind_trace_take2 env eng sol
      ⟨u, w, st, some sol.ctxId, some sol.ctxId⟩ bounds
  have hbind := solveAfterRebind_bindings env eng sol
      ⟨u, w, st, some sol.ctxId, some sol.ctxId⟩ bounds
  refine ⟨ht, ?_, ⟨hbind.1, hbind.2⟩, rfl⟩
  intro dm
  rw [ht]
  simp

/-- C9 (counterexample): the claim says both bounds are validated to be
proper field entities.  It is false: with a non-field lower bound the call
fails with the duck-typing `AttributeError` raised while extracting
`lower.dat.vec_ro` — no validation failure of the error taxonomy
(`TypeKind`) occurs, and the engine registration is never attempted. -/
theorem C9_counterexample :
    ((NonlinearVariationalSolver.solve ⟨fun s => s, fun _ => 7, fun _ v => v⟩
        ⟨fun w => w + 5, 2, true⟩
        ⟨{ bcs := [], is_linear := false, Jp_eq_J := true, u := ⟨0, 3⟩,
           F := .form 0 1 [⟨1, 4⟩], J := .form 1 2 [⟨1, 4⟩],
           Jp := none, constant_jacobian := false }, 11, []⟩
        ⟨1, 0, false, none, none⟩
        (some (BoundArg.nonField "int", BoundArg.field 0))).err =
      some SolveErr.attributeError) ∧
    ((NonlinearVariationalSolver.solve ⟨fun s => s, fun _ => 7, fun _ v => v⟩
        ⟨fun w => w + 5, 2, true⟩
        ⟨{ bcs := [], is_linear := false, Jp_eq_J := true, u := ⟨0, 3⟩,
           F := .form 0 1 [⟨1, 4⟩], J := .form 1 2 [⟨1, 4⟩],
           Jp := none, constant_jacobian := false }, 11, []⟩
        ⟨1, 0, false, none, none⟩
        (some (BoundArg.nonField "int", BoundArg.field 0))).err ≠
      some SolveErr.typeKind) ∧
    (Event.setVariableBounds ∉
      (NonlinearVariationalSolver.solve ⟨fun s => s, fun _ => 7, fun _ v => v⟩
        ⟨fun w => w + 5, 2, true⟩
        ⟨{ bcs := [], is_linear := false, Jp_eq_J := true, u := ⟨0, 3⟩,
           F := .form 0 1 [⟨1, 4⟩], J := .form 1 2 [⟨1, 4⟩],
           Jp := none, constant_jacobian := false }, 11, []⟩
        ⟨1, 0, false, none, none⟩
        (some (BoundArg.nonField "int", BoundArg.field 0))).trace) := by decide

/-- C9 (amended): field-entity bounds are registered with the engine via
`setVariableBounds` when the configured variant supports bounds, and the
engine-level `ConfigurationKind` failure on a non-supporting variant is
surfaced to the caller unintercepted (never raised when the variant does
support bounds); this layer performs no explicit type validation of the
bounds — a non-field bound fails with the duck-typing `AttributeError`
during vector extraction, before any registration. -/
theorem C9_amended_bounds (env : Env) (eng : Engine)
    (sol : NonlinearVariationalSolver) (s0 : SState)
    (lv uv : Int) (tn : String) :
    (eng.supportsBounds = true →
      Event.setVariableBounds ∈
        (NonlinearVariationalSolver.solve env eng sol s0
          (some (BoundArg.field lv, BoundArg.field uv))).trace ∧
      (NonlinearVariationalSolver.solve env eng sol s0
          (some (BoundArg.field lv, BoundArg.field uv))).err ≠
        some SolveErr.configurationKind) ∧
    (eng.supportsBounds = false →
      (NonlinearVariationalSolver.solve env eng sol s0
          (some (BoundArg.field lv, BoundArg.field uv))).err =
        some SolveErr.configurationKind ∧
      Event.setVariableBounds ∉
        (NonlinearVariationalSolver.solve env eng sol s0
          (some (BoundArg.field lv, BoundArg.field uv))).trace) ∧
    ((NonlinearVariationalSolver.solve env eng sol s0
        (some (BoundArg.nonField tn, BoundArg.field uv))).err =
      some SolveErr.attributeError ∧
     Event.setVariableBounds ∉
      (NonlinearVariationalSolver.solve env eng sol s0
        (some (BoundArg.nonField tn, BoundArg.field uv))).trace) := by
  refine ⟨?_, ?_, ?_⟩
  · intro hsb
    have hb : boundsAccepted eng (some (BoundArg.field lv, BoundArg.field uv)) = true := hsb
    rw [solve_accepted env eng sol s0 _ hb]
    constructor
    · rw [solveTail_trace]
      simp
    · rw [solveTail_err]
      unfold check_snes_convergence
      split_ifs <;> simp
  · intro hsb
    unfold NonlinearVariationalSolver.solve solveAfterRebind
    dsimp only
    rw [hsb]
    constructor
    · rfl
    · simp
  · constructor
    · rfl
    · unfold NonlinearVariationalSolver.solve solveAfterRebind
      dsimp only
      simp

/-- C9 (witness): with a bounds-capable engine the registration event is
present; with a non-capable engine the `ConfigurationKind` failure is
surfaced. -/
theorem C9_amended_bounds_witness :
    (Event.setVariableBounds ∈
      (NonlinearVariationalSolver.solve ⟨fun s => s, fun _ => 7, fun _ v => v⟩
        ⟨fun w => w + 5, 2, true⟩
        ⟨{ bcs := [], is_linear := false, Jp_eq_J := true, u := ⟨0, 3⟩,
           F := .form 0 1 [⟨1, 4⟩], J := .form 1 2 [⟨1, 4⟩],
           Jp := none, constant_jacobian := false }, 11, []⟩
        ⟨1, 0, false, none, none⟩
        (some (BoundArg.field 0, BoundArg.field 10))).trace) ∧
    ((NonlinearVariationalSolver.solve ⟨fun s => s, fun _ => 7, fun _ v => v⟩
        ⟨fun w => w + 5, 2, false⟩
        ⟨{ bcs := [], is_linear := false, Jp_eq_J := true, u := ⟨0, 3⟩,
           F := .form 0 1 [⟨1, 4⟩], J := .form 1 2 [⟨1, 4⟩],
           Jp := none, constant_jacobian := false }, 11, []⟩
        ⟨1, 0, false, none, none⟩
        (some (BoundArg.field 0, BoundArg.field 10))).err =
      some SolveErr.configurationKind) :=
  ⟨((C9_amended_bounds ⟨fun s => s, fun _ => 7, fun _ v => v⟩
        ⟨fun w => w + 5, 2, true⟩
        ⟨{ bcs := [], is_linear := false, Jp_eq_J := true, u := ⟨0, 3⟩,
           F := .form 0 1 [⟨1, 4⟩], J := .form 1 2 [⟨1, 4⟩],
           Jp := none, constant_jacobian := false }, 11, []⟩
        ⟨1, 0, false, none, none⟩ 0 10 "int").1 rfl).1,
   ((C9_amended_bounds ⟨fun s => s, fun _ => 7, fun _ v => v⟩
        ⟨fun w => w + 5, 2, false⟩
        ⟨{ bcs := [], is_linear := false, Jp_eq_J := true, u := ⟨0, 3⟩,
           F := .form 0 1 [⟨1, 4⟩], J := .form 1 2 [⟨1, 4⟩],
           Jp := none, constant_jacobian := false }, 11, []⟩
        ⟨1, 0, false, none, none⟩ 0 10 "int").2.1 rfl).1⟩

/-- C10: whenever the bounds handling is accepted (so the collective solve
runs and its result is copied back), `_setup` is `True` in the final state
— also on the divergence path, where `solve()` raises `DivergenceKind`
only after the flag is set. -/
theorem C10_setup_flag (env : Env) (eng : Engine)
    (sol : NonlinearVariationalSolver) (s0 : SState)
    (bounds : Option (BoundArg × BoundArg))
    (hb : boundsAccepted eng bounds = true) :
    (NonlinearVariationalSolver.solve env eng sol s0 bounds).state.setup = true ∧
    (eng.reason < 0 →
      (NonlinearVariationalSolver.solve env eng sol s0 bounds).err =
        some (SolveErr.divergenceKind eng.reason)) := by
  rw [solve_accepted env eng sol s0 bounds hb]
  constructor
  · rw [solveTail_state]
  · intro hr
    rw [solveTail_err]
    unfold check_snes_convergence
    rw [if_pos hr]

/-- C10 (witness): concrete diverged solve that still ends with
`_setup = True`. -/
theorem C10_setup_flag_witness :
    (NonlinearVariationalSolver.solve ⟨fun s => s, fun _ => 7, fun _ v => v⟩
        ⟨fun w => w + 5, -4, false⟩
        ⟨{ bcs := [], is_linear := false, Jp_eq_J := true, u := ⟨0, 3⟩,
           F := .form 0 1 [⟨1, 4⟩], J := .form 1 2 [⟨1, 4⟩],
           Jp := none, constant_jacobian := false }, 11, []⟩
        ⟨1, 0, false, none, none⟩ none).state.setup = true ∧
    (NonlinearVariationalSolver.solve ⟨fun s => s, fun _ => 7, fun _ v => v⟩
        ⟨fun w => w + 5, -4, false⟩
        ⟨{ bcs := [], is_linear := false, Jp_eq_J := true, u := ⟨0, 3⟩,
           F := .form 0 1 [⟨1, 4⟩], J := .form 1 2 [⟨1, 4⟩],
           Jp := none, constant_jacobian := false }, 11, []⟩
        ⟨1, 0, false, none, none⟩ none).err =
      some (SolveErr.divergenceKind (-4)) :=
  ⟨(C10_setup_flag ⟨fun s => s, fun _ => 7, fun _ v => v⟩
        ⟨fun w => w + 5, -4, false⟩
        ⟨{ bcs := [], is_linear := false, Jp_eq_J := true, u := ⟨0, 3⟩,
           F := .form 0 1 [⟨1, 4⟩], J := .form 1 2 [⟨1, 4⟩],
           Jp := none, constant_jacobian := false }, 11, []⟩
        ⟨1, 0, false, none, none⟩ none rfl).1,
   (C10_setup_flag ⟨fun s => s, fun _ => 7, fun _ v => v⟩
        ⟨fun w => w + 5, -4, false⟩
        ⟨{ bcs := [], is_linear := false, Jp_eq_J := true, u := ⟨0, 3⟩,
           F := .form 0 1 [⟨1, 4⟩], J := .form 1 2 [⟨1, 4⟩],
           Jp := none, constant_jacobian := false }, 11, []⟩
        ⟨1, 0, false, none, none⟩ none rfl).2 (by decide)⟩

end FiredrakeTs
